import Mathlib

/-!
Verification of the recommendation-resolution pipeline of a movie
recommendation web application (`src/app/api/recommendations/route.js` plus
the client-side list management in the main page component).

The JavaScript route handler is shallowly embedded: each stage of the POST
handler becomes a pure Lean function, external collaborators (the Gemini
oracle, the TMDB catalog, the Supabase store) are abstracted as outcome
functions packaged in a `World`, and the handler returns both its HTTP
response and the ordered trace of external calls it issues.
-/

namespace MovieRec

/-! ### JSON values and a JSON parser

`JSON.parse` from the route handler is modelled by a recursive-descent
parser over `List Char` following the JSON grammar (strings with escapes,
numbers kept as their raw text, arrays, objects, literals).  Parsing is
fuelled; the top-level entry point supplies fuel exceeding the input length,
which is enough since every recursive step consumes at least one character
of nesting or one array/object element. -/

inductive Json where
  | null : Json
  | bool (b : Bool) : Json
  | num (raw : String) : Json
  | str (s : String) : Json
  | arr (elems : List Json) : Json
  | obj (fields : List (String × Json)) : Json
deriving Repr

/-- JSON insignificant whitespace. -/
def isJsonWs (c : Char) : Bool :=
  c = ' ' || c = '\t' || c = '\n' || c = '\r'

def skipWs (cs : List Char) : List Char :=
  cs.dropWhile isJsonWs

def hexVal (c : Char) : Option Nat :=
  if '0' ≤ c ∧ c ≤ '9' then some (c.toNat - '0'.toNat)
  else if 'a' ≤ c ∧ c ≤ 'f' then some (c.toNat - 'a'.toNat + 10)
  else if 'A' ≤ c ∧ c ≤ 'F' then some (c.toNat - 'A'.toNat + 10)
  else none

/-- Body of a JSON string after the opening quote: returns the decoded
characters and the remainder after the closing quote.  Mirrors the escapes
`JSON.parse` accepts; unescaped control characters are rejected. -/
def parseStringBody : List Char → Option (List Char × List Char)
  | [] => none
  | c :: rest =>
    if c = '"' then some ([], rest)
    else if c = '\\' then
      match rest with
      | [] => none
      | e :: rest2 =>
        if e = '"' then (parseStringBody rest2).map (fun p => ('"' :: p.1, p.2))
        else if e = '\\' then (parseStringBody rest2).map (fun p => ('\\' :: p.1, p.2))
        else if e = '/' then (parseStringBody rest2).map (fun p => ('/' :: p.1, p.2))
        else if e = 'b' then (parseStringBody rest2).map (fun p => (Char.ofNat 8 :: p.1, p.2))
        else if e = 'f' then (parseStringBody rest2).map (fun p => (Char.ofNat 12 :: p.1, p.2))
        else if e = 'n' then (parseStringBody rest2).map (fun p => ('\n' :: p.1, p.2))
        else if e = 'r' then (parseStringBody rest2).map (fun p => ('\r' :: p.1, p.2))
        else if e = 't' then (parseStringBody rest2).map (fun p => ('\t' :: p.1, p.2))
        else if e = 'u' then
          match rest2 with
          | a :: b :: c2 :: d :: rest3 =>
            match hexVal a, hexVal b, hexVal c2, hexVal d with
            | some ha, some hb, some hc, some hd =>
              (parseStringBody rest3).map
                (fun p => (Char.ofNat (((ha * 16 + hb) * 16 + hc) * 16 + hd) :: p.1, p.2))
            | _, _, _, _ => none
          | _ => none
        else none
    else if c.toNat < 32 then none
    else (parseStringBody rest).map (fun p => (c :: p.1, p.2))

def spanDigits (cs : List Char) : List Char × List Char :=
  cs.span (fun c => '0' ≤ c ∧ c ≤ '9')

/-- Optional fraction part of a JSON number. -/
def parseFrac (cs : List Char) : Option (List Char × List Char) :=
  match cs with
  | '.' :: rest =>
    let p := spanDigits rest
    if p.1.isEmpty then none else some ('.' :: p.1, p.2)
  | _ => some ([], cs)

/-- Optional exponent part of a JSON number. -/
def parseExp (cs : List Char) : Option (List Char × List Char) :=
  match cs with
  | [] => some ([], [])
  | c :: rest =>
    if c = 'e' ∨ c = 'E' then
      match rest with
      | [] => none
      | s :: rest2 =>
        if s = '+' ∨ s = '-' then
          let p := spanDigits rest2
          if p.1.isEmpty then none else some (c :: s :: p.1, p.2)
        else
          let p := spanDigits rest
          if p.1.isEmpty then none else some (c :: p.1, p.2)
    else some ([], cs)

/-- JSON number grammar; the accepted text is kept raw (its numeric value is
never consumed by the route handler). -/
def parseNumber (cs : List Char) : Option (String × List Char) :=
  let signed : List Char × List Char :=
    match cs with
    | '-' :: r => (['-'], r)
    | _ => ([], cs)
  match signed.2 with
  | [] => none
  | c :: rest =>
    let intPart : Option (List Char × List Char) :=
      if c = '0' then some (signed.1 ++ ['0'], rest)
      else if '1' ≤ c ∧ c ≤ '9' then
        let p := spanDigits rest
        some (signed.1 ++ c :: p.1, p.2)
      else none
    match intPart with
    | none => none
    | some (ip, r1) =>
      match parseFrac r1 with
      | none => none
      | some (fp, r2) =>
        match parseExp r2 with
        | none => none
        | some (ep, r3) => some (String.mk (ip ++ fp ++ ep), r3)

/-- Result of one recursive-descent step: a value, the element list of an
array, or the member list of an object. -/
inductive PRes where
  | v (j : Json)
  | es (items : List Json)
  | ms (flds : List (String × Json))

/-- The recursive-descent step, structural in the fuel so that the kernel
can evaluate it.  The second argument is the mode: 0 parses one value, 1
parses the elements after an opening bracket, 2 parses the members after an
opening brace. -/
def parseStep : Nat → Nat → List Char → Option (PRes × List Char)
  | 0, _, _ => none
  | Nat.succ fuel, 0, cs =>
    match cs with
    | [] => none
    | c :: rest =>
      if c = '"' then
        match parseStringBody rest with
        | some (content, r) => some (PRes.v (Json.str (String.mk content)), r)
        | none => none
      else if c = '[' then
        match skipWs rest with
        | ']' :: r => some (PRes.v (Json.arr []), r)
        | cs2 =>
          match parseStep fuel 1 cs2 with
          | some (PRes.es items, r) => some (PRes.v (Json.arr items), r)
          | _ => none
      else if c = '{' then
        match skipWs rest with
        | '}' :: r => some (PRes.v (Json.obj []), r)
        | cs2 =>
          match parseStep fuel 2 cs2 with
          | some (PRes.ms flds, r) => some (PRes.v (Json.obj flds), r)
          | _ => none
      else if c = 't' then
        match rest with
        | 'r' :: 'u' :: 'e' :: r => some (PRes.v (Json.bool true), r)
        | _ => none
      else if c = 'f' then
        match rest with
        | 'a' :: 'l' :: 's' :: 'e' :: r => some (PRes.v (Json.bool false), r)
        | _ => none
      else if c = 'n' then
        match rest with
        | 'u' :: 'l' :: 'l' :: r => some (PRes.v Json.null, r)
        | _ => none
      else
        match parseNumber cs with
        | some (raw, r) => some (PRes.v (Json.num raw), r)
        | none => none
  | Nat.succ fuel, 1, cs =>
    match parseStep fuel 0 (skipWs cs) with
    | some (PRes.v j, r) =>
      match skipWs r with
      | ',' :: r2 =>
        match parseStep fuel 1 r2 with
        | some (PRes.es items, r3) => some (PRes.es (j :: items), r3)
        | _ => none
      | ']' :: r2 => some (PRes.es [j], r2)
      | _ => none
    | _ => none
  | Nat.succ fuel, 2, cs =>
    match skipWs cs with
    | '"' :: rest =>
      match parseStringBody rest with
      | none => none
      | some (key, r) =>
        match skipWs r with
        | ':' :: r2 =>
          match parseStep fuel 0 (skipWs r2) with
          | some (PRes.v v, r3) =>
            match skipWs r3 with
            | ',' :: r4 =>
              match parseStep fuel 2 r4 with
              | some (PRes.ms flds, r5) => some (PRes.ms ((String.mk key, v) :: flds), r5)
              | _ => none
            | '}' :: r4 => some (PRes.ms [(String.mk key, v)], r4)
            | _ => none
          | _ => none
        | _ => none
    | _ => none
  | Nat.succ _, _, _ => none

/-- `JSON.parse`: a single JSON value with only whitespace around it.  The
fuel bounds the recursion depth; two units per input character always
suffice, so the bound never cuts a parse short. -/
def jsonParse (cs : List Char) : Option Json :=
  match parseStep (2 * cs.length + 2) 0 (skipWs cs) with
  | some (PRes.v j, rest) => if (skipWs rest).isEmpty then some j else none
  | _ => none

/-! ### Gemini response parsing (route.js lines 84-109)

`textResponse.replace(/```json|```/g, '')` scans left to right, at each
position trying the alternative ` ```json ` before ` ``` `; then `.trim()`;
then `cleanedResponse.match(/\[.*\]/)` finds the leftmost `[` from which a
`]` is reachable without crossing a line break (`.` does not match `\n` or
`\r`), extending greedily to the last such `]`; the matched span is fed to
`JSON.parse` and the result must be a non-empty array. -/

/-- The backtick character (written via its code point). -/
def backtick : Char := Char.ofNat 96

/-- Does the character list start with the four letters of the word json? -/
def startsWithJson : List Char → Bool
  | 'j' :: 's' :: 'o' :: 'n' :: _ => true
  | _ => false

/-- Does the character list start with two backticks? -/
def twoBackticks : List Char → Bool
  | b2 :: b3 :: _ => b2 = backtick && b3 = backtick
  | _ => false

/-- Fuelled scanner for the fence replacement; structural in the fuel so
that the kernel can evaluate it.  Every step consumes at least one character
of the input, so input-length fuel always suffices. -/
def stripFencesGo : Nat → List Char → List Char
  | 0, cs => cs
  | Nat.succ fuel, cs =>
    match cs with
    | [] => []
    | c :: rest =>
      if c = backtick && twoBackticks rest then
        if startsWithJson (rest.drop 2) then stripFencesGo fuel (rest.drop 6)
        else stripFencesGo fuel (rest.drop 2)
      else c :: stripFencesGo fuel rest

/-- Global replacement of the code-fence markers: the regex alternation
tries the longer alternative (fence followed by the word json) before the
bare triple fence at every position, scanning left to right. -/
def stripFences (cs : List Char) : List Char :=
  stripFencesGo cs.length cs

/-- `String.prototype.trim` restricted to ASCII whitespace, on `List Char`. -/
def trimChars (cs : List Char) : List Char :=
  ((cs.dropWhile isJsonWs).reverse.dropWhile isJsonWs).reverse

/-- `String.prototype.trim` on `String`. -/
def jsTrim (s : String) : String :=
  String.mk (trimChars s.data)

/-- Greedy closing step of `/\[.*\]/`: everything up to the LAST `]` that is
reachable from here without crossing a line break, or `none` when no `]`
occurs on the rest of this line. -/
def takeThroughLastClose (cs : List Char) : Option (List Char) :=
  let seg := cs.takeWhile (fun c => c ≠ '\n' ∧ c ≠ '\r')
  match seg.reverse.dropWhile (fun c => c ≠ ']') with
  | [] => none
  | revSeg => some revSeg.reverse

/-- Leftmost match of `/\[.*\]/` over the cleaned response. -/
def findBracketSpan : List Char → Option (List Char)
  | [] => none
  | c :: rest =>
    if c = '[' then
      match takeThroughLastClose rest with
      | some inner => some ('[' :: inner)
      | none => findBracketSpan rest
    else findBracketSpan rest

/-- Error text when the bracketed span is not a non-empty array
(route.js line 96). -/
def invalidFormatMsg : String :=
  "Invalid response format - expected array of movie titles"

/-- Error text when no bracketed span is found (route.js line 100). -/
def noArrayMsg : String :=
  "No valid JSON array found in Gemini response"

/-- Stand-in for the engine-specific message of the error `JSON.parse`
throws; only its presence as the `details` payload matters. -/
def jsonParseErrMsg : String :=
  "Unexpected token in JSON"

/-- The whole parse stage of the handler (route.js lines 86-101): strip
fences, trim, locate the bracketed span, `JSON.parse` it, and require a
non-empty array; errors carry the message of the exception thrown. -/
def parseMovieTitles (textResponse : String) : Except String (List Json) :=
  let cleaned := trimChars (stripFences textResponse.data)
  match findBracketSpan cleaned with
  | none => Except.error noArrayMsg
  | some span =>
    match jsonParse span with
    | none => Except.error jsonParseErrMsg
    | some (Json.arr items) =>
      if items.isEmpty then Except.error invalidFormatMsg else Except.ok items
    | some _ => Except.error invalidFormatMsg

/-! ### Data model

Catalog search results and detail lookups come from remote JSON, so every
field the handler dereferences defensively is optional here; `EnrichedMovie`
mirrors the `movieData` object built by the handler, where every field has a
defined default.  Numeric rating fields are carried as integers: the handler
only passes them through (with a falsy-to-zero default), never computes with
them. -/

structure Genre where
  id : Int
  name : String

structure Credits where
  cast : List String
  crew : List String

structure SearchResult where
  id : Int
  title : Option String
  overview : Option String
  poster_path : Option String
  backdrop_path : Option String
  release_date : Option String
  vote_average : Option Int
  vote_count : Option Int
  original_language : Option String

/-- Fields of the TMDB detail response the handler reads.  The `videos` and
`similar` fields stand for the inner `results` arrays reached by optional
chaining (a missing wrapper object and a missing inner array both surface
here as `none`). -/
structure DetailData where
  runtime : Option Int
  genres : Option (List Genre)
  credits : Option Credits
  videos : Option (List String)
  similar : Option (List Int)
  status : Option String
  tagline : Option String

structure EnrichedMovie where
  id : Int
  title : String
  overview : String
  poster_path : Option String
  backdrop_path : Option String
  release_date : String
  vote_average : Int
  vote_count : Int
  runtime : Int
  genres : List Genre
  credits : Credits
  videos : List String
  similar : List Int
  providers : Option String
  original_language : String
  status : String
  tagline : String

/-! ### JavaScript truthiness helpers -/

/-- Truthiness of an optional string: both absence and the empty string are
falsy in JavaScript. -/
def truthyStr : Option String → Bool
  | none => false
  | some s => !(s = "")

/-- The `v || d` idiom on an optional string field. -/
def jsOrStr (v : Option String) (d : String) : String :=
  match v with
  | none => d
  | some s => if s = "" then d else s

/-- The `p ? base + p : null` idiom building an image URL. -/
def jsPathUrl (base : String) (p : Option String) : Option String :=
  match p with
  | none => none
  | some s => if s = "" then none else some (base ++ s)

/-! ### Per-title catalog resolution (route.js lines 131-171) -/

/-- Outcome of one TMDB title search after the retry wrapper: an error
(caught and converted to a dropped candidate), or the response whose
`results` field may be absent. -/
abbrev SearchOutcome := Except Unit (Option (List SearchResult))

/-- `String.prototype.toLowerCase`, restricted to the ASCII case mapping
and kept kernel-evaluable. -/
def jsToLower (s : String) : String :=
  String.mk (s.data.map Char.toLower)

/-- The predicate of the case-insensitive exact-match `find` (line 155):
`movie.title && movie.title.toLowerCase() === title.toLowerCase()`. -/
def exactMatchPred (title : String) (m : SearchResult) : Bool :=
  match m.title with
  | some mt => !(mt = "") && jsToLower mt = jsToLower title
  | none => false

/-- One candidate's resolution.  A search error, an absent or empty result
list, or a chosen result without a truthy title all drop the candidate to
`none`; a non-string candidate also drops, because calling `toLowerCase` on
it raises a `TypeError` that the per-title catch converts to `null` (and
when the match predicate is never evaluated, the first result's missing
title drops it on the explicit check instead). -/
def resolveCandidate (search : Json → SearchOutcome) (t : Json) : Option SearchResult :=
  match search t with
  | Except.error _ => none
  | Except.ok none => none
  | Except.ok (some results) =>
    match results with
    | [] => none
    | first :: _ =>
      match t with
      | Json.str title =>
        let movieToUse := (results.find? (exactMatchPred title)).getD first
        match movieToUse.title with
        | none => none
        | some mt => if mt = "" then none else some movieToUse
      | _ => none

/-! ### Enrichment (route.js lines 184-265) -/

/-- Building `movieData` for one resolved movie.  On a failed detail call
the catch branch (lines 242-263) emits the partial record: catalog fields
with the same defaults, every enrichment field at its default, and
`providers` pinned to `null` (the providers call never happens there).  On a
successful detail call, a failed or empty providers lookup leaves
`providers` at `null` silently. -/
def enrichMovie (movie : SearchResult) (det : Except Unit DetailData)
    (prov : Except Unit (Option String)) : EnrichedMovie :=
  match det with
  | Except.ok d =>
    { id := movie.id
      title := movie.title.getD ""
      overview := jsOrStr movie.overview "No overview available"
      poster_path := jsPathUrl "https://image.tmdb.org/t/p/w500" movie.poster_path
      backdrop_path := jsPathUrl "https://image.tmdb.org/t/p/w1280" movie.backdrop_path
      release_date := jsOrStr movie.release_date "Unknown"
      vote_average := movie.vote_average.getD 0
      vote_count := movie.vote_count.getD 0
      runtime := d.runtime.getD 0
      genres := d.genres.getD []
      credits := d.credits.getD { cast := [], crew := [] }
      videos := d.videos.getD []
      similar := d.similar.getD []
      providers := match prov with | Except.ok v => v | Except.error _ => none
      original_language := jsOrStr movie.original_language "en"
      status := jsOrStr d.status "Unknown"
      tagline := jsOrStr d.tagline "" }
  | Except.error _ =>
    { id := movie.id
      title := movie.title.getD ""
      overview := jsOrStr movie.overview "No overview available"
      poster_path := jsPathUrl "https://image.tmdb.org/t/p/w500" movie.poster_path
      backdrop_path := jsPathUrl "https://image.tmdb.org/t/p/w1280" movie.backdrop_path
      release_date := jsOrStr movie.release_date "Unknown"
      vote_average := movie.vote_average.getD 0
      vote_count := movie.vote_count.getD 0
      runtime := 0
      genres := []
      credits := { cast := [], crew := [] }
      videos := []
      similar := []
      providers := none
      original_language := jsOrStr movie.original_language "en"
      status := "Unknown"
      tagline := "" }

/-! ### The request handler -/

/-- The environment variables the handler reads; a variable that is unset or
set to the empty string fails the defensive check. -/
structure Env where
  supabaseUrl : Option String
  supabaseKey : Option String
  tmdbApiKey : Option String
  geminiApiKey : Option String

/-- The destructured request body.  The client also sends `heroName`
(page component, handleSubmit), but the handler's destructuring never binds
it. -/
structure RequestBody where
  genre : Option String
  language : Option String
  additionalDetails : Option String
  heroName : Option String
  userId : Option String
  savePreferences : Option Bool

/-- Outcomes of the external collaborators for one request: the Gemini
text-completion call, and the TMDB search / detail / watch-provider calls. -/
structure World where
  gemini : Except String String
  search : Json → SearchOutcome
  details : Int → Except Unit DetailData
  providers : Int → Except Unit (Option String)

/-- External calls the handler issues, in program order. -/
inductive Event where
  | prefUpsert (userId : String) (genre : String)
  | geminiCall
  | tmdbSearch (title : Json)
  | tmdbDetails (movieId : Int)
  | tmdbProviders (movieId : Int)
  | movieUpsert (userId : String) (movieId : Int)

/-- A JSON response: the success array, or a structured error with an HTTP
status, a short label, an optional details string, and the optional raw
oracle text attached only by the parse-failure branch. -/
inductive Response where
  | ok (movies : List EnrichedMovie)
  | err (status : Nat) (label : String) (details : Option String) (raw : Option String)

/-- The raw oracle text attached to a response, when any. -/
def Response.rawText : Response → Option String
  | Response.ok _ => none
  | Response.err _ _ _ r => r

def cfgSupabaseResp : Response :=
  Response.err 500 "Configuration Error (Supabase)"
    (some "The SUPABASE_URL or SUPABASE_ANON_KEY environment variables are missing on the server. Please check Netlify Build settings.")
    none

def cfgGeminiResp : Response :=
  Response.err 500 "Configuration Error (Gemini)"
    (some "The GEMINI_API_KEY is missing on the server. Please check Netlify Build settings.")
    none

def cfgTmdbResp : Response :=
  Response.err 500 "Configuration Error (TMDB)"
    (some "The TMDB_API_KEY is missing on the server. Please check Netlify Build settings.")
    none

def genreRequiredResp : Response :=
  Response.err 400 "Genre is required" none none

def parseFailResp (emsg raw : String) : Response :=
  Response.err 500 "Failed to parse movie recommendations" (some emsg) (some raw)

def noResultsResp : Response :=
  Response.err 404 "No movies found matching your criteria"
    (some "TMDB returned no valid results for the suggested movies") none

def outerCatchResp (msg : String) : Response :=
  Response.err 500 ("API route error: " ++ msg) (some "Internal server error") none

/-- One movie's enrichment step with its emitted calls: the detail fetch
always happens; the providers fetch and the per-user cache upsert happen
only when the detail fetch succeeded (the cache upsert additionally needs a
truthy user id). -/
def enrichOne (w : World) (userId : Option String) (m : SearchResult) :
    EnrichedMovie × List Event :=
  match w.details m.id with
  | Except.error e =>
    (enrichMovie m (Except.error e) (Except.error ()), [Event.tmdbDetails m.id])
  | Except.ok d =>
    (enrichMovie m (Except.ok d) (w.providers m.id),
     [Event.tmdbDetails m.id, Event.tmdbProviders m.id] ++
       (if truthyStr userId then [Event.movieUpsert (userId.getD "") m.id] else []))

/-- The POST handler, returning the response together with the trace of
external calls in the order the code issues them (concurrently launched
searches are listed in launch order; their interleaving is not modelled). -/
def POST (env : Env) (body : Except String RequestBody) (w : World) :
    Response × List Event :=
  if !truthyStr env.supabaseUrl || !truthyStr env.supabaseKey then (cfgSupabaseResp, [])
  else if !truthyStr env.geminiApiKey then (cfgGeminiResp, [])
  else if !truthyStr env.tmdbApiKey then (cfgTmdbResp, [])
  else
    match body with
    | Except.error msg => (outerCatchResp msg, [])
    | Except.ok b =>
      if !truthyStr b.genre then (genreRequiredResp, [])
      else
        let prefEvents :=
          if b.savePreferences.getD false && truthyStr b.userId then
            [Event.prefUpsert (b.userId.getD "") (b.genre.getD "")]
          else []
        match w.gemini with
        | Except.error msg => (outerCatchResp msg, prefEvents ++ [Event.geminiCall])
        | Except.ok text =>
          let textResponse := jsTrim text
          match parseMovieTitles textResponse with
          | Except.error emsg =>
            (parseFailResp emsg textResponse, prefEvents ++ [Event.geminiCall])
          | Except.ok movieTitles =>
            let searchEvents := movieTitles.map Event.tmdbSearch
            let validMovies := movieTitles.filterMap (resolveCandidate w.search)
            match validMovies with
            | [] => (noResultsResp, prefEvents ++ [Event.geminiCall] ++ searchEvents)
            | _ =>
              let enriched := validMovies.map (enrichOne w b.userId)
              (Response.ok (enriched.map Prod.fst),
               prefEvents ++ [Event.geminiCall] ++ searchEvents ++
                 (enriched.map Prod.snd).flatten)

/-! ### The retry wrapper (route.js lines 118-127) -/

/-- Events of one `fetchWithRetry` run. -/
inductive RetryEvent where
  | attempt (i : Nat)
  | delayMs (ms : Nat)

/-- The retry loop body: `i` is the current index, the second argument the
remaining iterations (`retries - i`).  On the last iteration the error is
rethrown unchanged; otherwise a fixed 500ms delay precedes the next
attempt.  `none` is the undefined value a zero-iteration loop would fall
through to. -/
def fetchWithRetryGo (attempts : Nat → Except String String) :
    Nat → Nat → Option (Except String String) × List RetryEvent
  | _, 0 => (none, [])
  | i, Nat.succ rem =>
    match attempts i with
    | Except.ok r => (some (Except.ok r), [RetryEvent.attempt i])
    | Except.error e =>
      if rem = 0 then (some (Except.error e), [RetryEvent.attempt i])
      else
        let next := fetchWithRetryGo attempts (i + 1) rem
        (next.fst, RetryEvent.attempt i :: RetryEvent.delayMs 500 :: next.snd)

/-- `fetchWithRetry` at its default of 3 retries, abstracting one attempt of
`axios.get` as an outcome per attempt index. -/
def fetchWithRetry (attempts : Nat → Except String String) :
    Option (Except String String) × List RetryEvent :=
  fetchWithRetryGo attempts 0 3

/-! ### Saving a movie to an existing list (page component) -/

/-- Outcome of `handleSaveToExistingList`: the informational
already-in-the-list toast, or a successful append. -/
inductive AddOutcome where
  | alreadyPresent
  | added

/-- The list-update core of `handleSaveToExistingList`: when some movie in
the stored list has the same id, nothing is written and the informational
outcome is reported; otherwise the movie is appended at the end via the
spread update. -/
def handleSaveToExistingList (listMovies : List EnrichedMovie) (movie : EnrichedMovie) :
    AddOutcome × List EnrichedMovie :=
  if listMovies.any (fun m => m.id == movie.id) then (AddOutcome.alreadyPresent, listMovies)
  else (AddOutcome.added, listMovies ++ [movie])

/-! ### Concrete fixtures used by witnesses and counterexamples -/

/-- A world in which every external collaborator fails. -/
def dummyWorld : World :=
  { gemini := Except.error "down"
    search := fun _ => Except.error ()
    details := fun _ => Except.error ()
    providers := fun _ => Except.error () }

/-- An environment with every credential present. -/
def fullEnv : Env :=
  { supabaseUrl := some "url", supabaseKey := some "key"
    tmdbApiKey := some "tmdb", geminiApiKey := some "gem" }

/-- A request that asks to save preferences for user u1. -/
def savingBody : RequestBody :=
  { genre := some "Action", language := some "en", additionalDetails := none
    heroName := none, userId := some "u1", savePreferences := some true }

/-- A concrete enriched movie record. -/
def sampleMovie : EnrichedMovie :=
  { id := 157336, title := "Interstellar", overview := "A team of explorers."
    poster_path := none, backdrop_path := none, release_date := "2014-11-05"
    vote_average := 8, vote_count := 100, runtime := 169, genres := []
    credits := { cast := [], crew := [] }, videos := [], similar := []
    providers := none, original_language := "en", status := "Released"
    tagline := "" }

/-! ### Claims -/

/-- C1: enrichment degrades instead of aborting.  When the detail lookup for
a resolved catalog movie fails, the resulting record carries runtime 0,
empty genres, empty credits, empty videos, empty similar list, null
providers, status Unknown and empty tagline, while the catalog search-result
fields (id, title, overview, poster and backdrop paths, release date, vote
average, vote count, original language) are exactly those the successful
branch would produce; and when the detail lookup succeeds, a failed or empty
watch-provider lookup yields null providers with no error surfaced. -/
theorem c1_enrichment_degrades (movie : SearchResult) (e : Unit)
    (prov prov2 : Except Unit (Option String)) (d : DetailData) :
    (enrichMovie movie (Except.error e) prov).runtime = 0 ∧
    (enrichMovie movie (Except.error e) prov).genres = [] ∧
    (enrichMovie movie (Except.error e) prov).credits = { cast := [], crew := [] } ∧
    (enrichMovie movie (Except.error e) prov).videos = [] ∧
    (enrichMovie movie (Except.error e) prov).similar = [] ∧
    (enrichMovie movie (Except.error e) prov).providers = none ∧
    (enrichMovie movie (Except.error e) prov).status = "Unknown" ∧
    (enrichMovie movie (Except.error e) prov).tagline = "" ∧
    (enrichMovie movie (Except.error e) prov).id = movie.id ∧
    (enrichMovie movie (Except.error e) prov).title =
      (enrichMovie movie (Except.ok d) prov2).title ∧
    (enrichMovie movie (Except.error e) prov).overview =
      (enrichMovie movie (Except.ok d) prov2).overview ∧
    (enrichMovie movie (Except.error e) prov).poster_path =
      (enrichMovie movie (Except.ok d) prov2).poster_path ∧
    (enrichMovie movie (Except.error e) prov).backdrop_path =
      (enrichMovie movie (Except.ok d) prov2).backdrop_path ∧
    (enrichMovie movie (Except.error e) prov).release_date =
      (enrichMovie movie (Except.ok d) prov2).release_date ∧
    (enrichMovie movie (Except.error e) prov).vote_average =
      (enrichMovie movie (Except.ok d) prov2).vote_average ∧
    (enrichMovie movie (Except.error e) prov).vote_count =
      (enrichMovie movie (Except.ok d) prov2).vote_count ∧
    (enrichMovie movie (Except.error e) prov).original_language =
      (enrichMovie movie (Except.ok d) prov2).original_language ∧
    (enrichMovie movie (Except.ok d) (Except.error ())).providers = none ∧
    (enrichMovie movie (Except.ok d) (Except.ok none)).providers = none :=
  ⟨rfl, rfl, rfl, rfl, rfl, rfl, rfl, rfl, rfl, rfl, rfl, rfl, rfl, rfl, rfl,
   rfl, rfl, rfl, rfl⟩

/-- C3: the oracle-response parser strips code-fence markers, locates a
bracketed span, and parses it as JSON; on the concrete fenced response with
surrounding prose it yields exactly the two-title list, ignoring the
prose. -/
theorem c3_parse_fenced_example :
    parseMovieTitles "Here you go:\n```json\n[\"Inception\",\"Arrival\"]\n```" =
      Except.ok [Json.str "Inception", Json.str "Arrival"] ∧
    (∀ t span items, findBracketSpan (trimChars (stripFences t.data)) = some span →
      jsonParse span = some (Json.arr items) → items ≠ [] →
      parseMovieTitles t = Except.ok items) := by
  constructor
  · rfl
  · intro t span items hspan hparse hne
    simp only [parseMovieTitles, hspan, hparse]
    simp [hne]

/-- C3 witness: the general strip-locate-parse conclusion instantiated on a
small unfenced response. -/
theorem c3_parse_fenced_example_witness :
    parseMovieTitles "take [\"A\"] now" = Except.ok [Json.str "A"] :=
  c3_parse_fenced_example.2 "take [\"A\"] now" "[\"A\"]".data [Json.str "A"]
    rfl rfl (by simp)

/-- C5: the catalog search wrapper makes exactly 3 attempts on persistent
failure, with a fixed 500ms delay between consecutive attempts, and rethrows
the final attempt's error unchanged; a success on attempt 2 is returned
immediately with no further attempts. -/
theorem c5_retry_policy (attempts attempts2 : Nat → Except String String)
    (e0 e1 e2 r : String)
    (h0 : attempts 0 = Except.error e0) (h1 : attempts 1 = Except.error e1)
    (h2 : attempts 2 = Except.error e2)
    (g0 : attempts2 0 = Except.error e0) (g1 : attempts2 1 = Except.ok r) :
    fetchWithRetry attempts =
      (some (Except.error e2),
       [RetryEvent.attempt 0, RetryEvent.delayMs 500, RetryEvent.attempt 1,
        RetryEvent.delayMs 500, RetryEvent.attempt 2]) ∧
    fetchWithRetry attempts2 =
      (some (Except.ok r),
       [RetryEvent.attempt 0, RetryEvent.delayMs 500, RetryEvent.attempt 1]) := by
  constructor <;> simp [fetchWithRetry, fetchWithRetryGo, h0, h1, h2, g0, g1]

/-- C5 witness: the retry policy on a concrete always-failing attempt
function and a concrete fail-once function. -/
theorem c5_retry_policy_witness :
    fetchWithRetry (fun _ => Except.error "E") =
      (some (Except.error "E"),
       [RetryEvent.attempt 0, RetryEvent.delayMs 500, RetryEvent.attempt 1,
        RetryEvent.delayMs 500, RetryEvent.attempt 2]) ∧
    fetchWithRetry (fun i => if i = 0 then Except.error "E" else Except.ok "R") =
      (some (Except.ok "R"),
       [RetryEvent.attempt 0, RetryEvent.delayMs 500, RetryEvent.attempt 1]) :=
  c5_retry_policy (fun _ => Except.error "E")
    (fun i => if i = 0 then Except.error "E" else Except.ok "R")
    "E" "E" "E" "R" rfl rfl rfl rfl rfl

/-- C9: adding a movie to a named list is idempotent in the movie id: a
second add of any record with the same id reports the already-present
outcome and leaves the stored movie sequence (hence its count) unchanged;
a fresh add appends the movie exactly once, and an add of an id already
present changes nothing. -/
theorem c9_add_idempotent (listMovies : List EnrichedMovie) (movie m2 : EnrichedMovie)
    (hid : m2.id = movie.id) :
    handleSaveToExistingList (handleSaveToExistingList listMovies movie).2 m2 =
      (AddOutcome.alreadyPresent, (handleSaveToExistingList listMovies movie).2) ∧
    (listMovies.any (fun m => m.id == movie.id) = true →
      handleSaveToExistingList listMovies movie = (AddOutcome.alreadyPresent, listMovies)) ∧
    (listMovies.any (fun m => m.id == movie.id) = false →
      handleSaveToExistingList listMovies movie = (AddOutcome.added, listMovies ++ [movie])) := by
  unfold handleSaveToExistingList
  by_cases h : listMovies.any (fun m => m.id == movie.id) <;>
    simp [h, hid]

/-- C9 witness: adding the sample movie to the empty list and then adding it
again reports the already-present outcome and leaves the one-element list
unchanged. -/
theorem c9_add_idempotent_witness :
    handleSaveToExistingList (handleSaveToExistingList [] sampleMovie).2 sampleMovie =
      (AddOutcome.alreadyPresent, (handleSaveToExistingList [] sampleMovie).2) :=
  (c9_add_idempotent [] sampleMovie sampleMovie rfl).1

/-- C10: the handler's behaviour is independent of the heroName field the
client sends: two parsed request bodies differing only in heroName produce
the same response and the same trace of external calls, because the
handler's destructuring never binds heroName. -/
theorem c10_heroName_independent (env : Env) (w : World) (b : RequestBody)
    (hn1 hn2 : Option String) :
    POST env (Except.ok { b with heroName := hn1 }) w =
      POST env (Except.ok { b with heroName := hn2 }) w := rfl

/-- A request body with no field set. -/
def emptyBody : RequestBody :=
  { genre := none, language := none, additionalDetails := none
    heroName := none, userId := none, savePreferences := none }

/-- C6: configuration checks run first, then input validation, then external
calls.  With a credential absent the corresponding configuration-error
response is returned with an empty call trace, before the body is even
consulted; with all credentials present and a falsy genre, the response is
the 400 Genre is required error, again with an empty call trace. -/
theorem c6_config_then_validation_then_calls (env : Env)
    (body : Except String RequestBody) (b : RequestBody) (w : World) :
    ((truthyStr env.supabaseUrl = false ∨ truthyStr env.supabaseKey = false) →
      POST env body w = (cfgSupabaseResp, [])) ∧
    (truthyStr env.supabaseUrl = true → truthyStr env.supabaseKey = true →
      truthyStr env.geminiApiKey = false →
      POST env body w = (cfgGeminiResp, [])) ∧
    (truthyStr env.supabaseUrl = true → truthyStr env.supabaseKey = true →
      truthyStr env.geminiApiKey = true → truthyStr env.tmdbApiKey = false →
      POST env body w = (cfgTmdbResp, [])) ∧
    (truthyStr env.supabaseUrl = true → truthyStr env.supabaseKey = true →
      truthyStr env.geminiApiKey = true → truthyStr env.tmdbApiKey = true →
      truthyStr b.genre = false →
      POST env (Except.ok b) w = (Response.err 400 "Genre is required" none none, [])) := by
  refine ⟨fun h => ?_, fun h1 h2 h3 => ?_, fun h1 h2 h3 h4 => ?_,
    fun h1 h2 h3 h4 h5 => ?_⟩
  · rcases h with h | h <;> simp [POST, h]
  · simp [POST, h1, h2, h3]
  · simp [POST, h1, h2, h3, h4]
  · simp [POST, h1, h2, h3, h4, h5, genreRequiredResp]

/-- C6 witness: with every credential present and a genre-less body, the
handler returns the 400 error and issues no external call. -/
theorem c6_config_then_validation_then_calls_witness :
    POST fullEnv (Except.ok emptyBody) dummyWorld =
      (Response.err 400 "Genre is required" none none, []) :=
  (c6_config_then_validation_then_calls fullEnv (Except.ok emptyBody) emptyBody
    dummyWorld).2.2.2 rfl rfl rfl rfl rfl

/-- C8 counterexample: the claim says no store write is issued before
candidate generation and enrichment have run, so a request failing during
generation performs no preference write; but on the concrete saving request
whose oracle call fails, the trace contains the preference upsert — and it
precedes the oracle call. -/
theorem c8_counterexample :
    POST fullEnv (Except.ok savingBody) dummyWorld =
      (outerCatchResp "down", [Event.prefUpsert "u1" "Action", Event.geminiCall]) ∧
    Event.prefUpsert "u1" "Action" ∈ (POST fullEnv (Except.ok savingBody) dummyWorld).2 := by
  refine ⟨rfl, ?_⟩
  show Event.prefUpsert "u1" "Action" ∈ [Event.prefUpsert "u1" "Action", Event.geminiCall]
  exact List.mem_cons_self _ _

/-- C8 amended: preference persistence happens BEFORE candidate generation:
whenever credentials, genre, savePreferences and userId are all present, the
preference upsert is the first external call of the trace and the oracle
call comes second, so a request that later fails during generation or
parsing has already performed the preference write; only the per-movie
cache writes follow resolution and enrichment. -/
theorem c8_pref_upsert_precedes_generation (env : Env) (b : RequestBody) (w : World)
    (h1 : truthyStr env.supabaseUrl = true) (h2 : truthyStr env.supabaseKey = true)
    (h3 : truthyStr env.geminiApiKey = true) (h4 : truthyStr env.tmdbApiKey = true)
    (h5 : truthyStr b.genre = true) (h6 : b.savePreferences.getD false = true)
    (h7 : truthyStr b.userId = true) :
    ((POST env (Except.ok b) w).2).take 2 =
      [Event.prefUpsert (b.userId.getD "") (b.genre.getD ""), Event.geminiCall] := by
  cases hg : w.gemini with
  | error msg => simp [POST, h1, h2, h3, h4, h5, h6, h7, hg]
  | ok text =>
    cases hp : parseMovieTitles (jsTrim text) with
    | error emsg => simp [POST, h1, h2, h3, h4, h5, h6, h7, hg, hp]
    | ok titles =>
      cases hv : titles.filterMap (resolveCandidate w.search) with
      | nil => simp [POST, h1, h2, h3, h4, h5, h6, h7, hg, hp, hv]
      | cons x xs => simp [POST, h1, h2, h3, h4, h5, h6, h7, hg, hp, hv]

/-- C8 amended witness: on the concrete saving request with the failing
world, the first two trace entries are the preference upsert and the oracle
call. -/
theorem c8_pref_upsert_precedes_generation_witness :
    ((POST fullEnv (Except.ok savingBody) dummyWorld).2).take 2 =
      [Event.prefUpsert "u1" "Action", Event.geminiCall] :=
  c8_pref_upsert_precedes_generation fullEnv savingBody dummyWorld
    rfl rfl rfl rfl rfl rfl rfl

/-- Characterisation of a successful resolution: the candidate was a string,
the chosen record's title is present, and it is either a case-insensitive
match of the candidate or the record is the first search result. -/
theorem resolveCandidate_some (search : Json → SearchOutcome) (t : Json)
    (m : SearchResult) (h : resolveCandidate search t = some m) :
    ∃ s, t = Json.str s ∧ ∃ mt, m.title = some mt ∧
      (jsToLower mt = jsToLower s ∨
        ∃ first rest2, search t = Except.ok (some (first :: rest2)) ∧ m = first) := by
  unfold resolveCandidate at h
  cases hs : search t with
  | error e => rw [hs] at h; cases h
  | ok o =>
    rw [hs] at h
    cases o with
    | none => cases h
    | some results =>
      cases results with
      | nil => cases h
      | cons first rest2 =>
        cases t with
        | str s =>
          refine ⟨s, rfl, ?_⟩
          dsimp only at h
          cases hf : (first :: rest2).find? (exactMatchPred s) with
          | some m0 =>
            rw [hf] at h
            have hp := List.find?_some hf
            unfold exactMatchPred at hp
            cases hm : m0.title with
            | none => rw [hm] at hp; cases hp
            | some mt =>
              rw [hm] at hp
              simp only [Bool.and_eq_true, Bool.not_eq_true', decide_eq_true_eq,
                decide_eq_false_iff_not] at hp
              simp only [Option.getD_some, hm] at h
              rw [if_neg hp.1] at h
              cases h
              exact ⟨mt, hm, Or.inl hp.2⟩
          | none =>
            rw [hf] at h
            simp only [Option.getD_none] at h
            cases hm : first.title with
            | none => simp only [hm] at h; cases h
            | some mt =>
              simp only [hm] at h
              by_cases hmt : mt = ""
              · rw [if_pos hmt] at h; cases h
              · rw [if_neg hmt] at h
                cases h
                exact ⟨mt, hm, Or.inr ⟨_, _, rfl, rfl⟩⟩
        | null => cases h
        | bool b => cases h
        | num raw => cases h
        | arr elems => cases h
        | obj fields => cases h

/-- C2: per-title resolution picks the case-insensitive exact title match
when one exists, else the first search result when that result has a truthy
title; an errored search, an absent results field, an empty result list, or
a first result lacking a truthy title (with no exact match) drop the
candidate to null; and — once the resolution stage is reached — the whole
request yields the 404 no-results response exactly when every parsed
candidate drops. -/
theorem c2_resolution_rule :
    (∀ search : Json → SearchOutcome, ∀ title results m,
      search (Json.str title) = Except.ok (some results) →
      results.find? (exactMatchPred title) = some m →
      resolveCandidate search (Json.str title) = some m) ∧
    (∀ search : Json → SearchOutcome, ∀ title first rest2,
      search (Json.str title) = Except.ok (some (first :: rest2)) →
      (first :: rest2).find? (exactMatchPred title) = none →
      resolveCandidate search (Json.str title) =
        (if truthyStr first.title then some first else none)) ∧
    (∀ search : Json → SearchOutcome, ∀ t,
      (search t = Except.error () ∨ search t = Except.ok none ∨
        search t = Except.ok (some [])) →
      resolveCandidate search t = none) ∧
    (∀ env b w text titles,
      truthyStr env.supabaseUrl = true → truthyStr env.supabaseKey = true →
      truthyStr env.geminiApiKey = true → truthyStr env.tmdbApiKey = true →
      truthyStr b.genre = true → w.gemini = Except.ok text →
      parseMovieTitles (jsTrim text) = Except.ok titles →
      ((POST env (Except.ok b) w).1 = noResultsResp ↔
        ∀ t ∈ titles, resolveCandidate w.search t = none)) := by
  refine ⟨?_, ?_, ?_, ?_⟩
  · intro search title results m hs hf
    unfold resolveCandidate
    rw [hs]
    cases results with
    | nil => simp at hf
    | cons first rest2 =>
      dsimp only
      rw [hf]
      have hp := List.find?_some hf
      unfold exactMatchPred at hp
      cases hm : m.title with
      | none => rw [hm] at hp; cases hp
      | some mt =>
        rw [hm] at hp
        simp only [Bool.and_eq_true, Bool.not_eq_true', decide_eq_true_eq,
          decide_eq_false_iff_not] at hp
        simp only [Option.getD_some, hm]
        rw [if_neg hp.1]
  · intro search title first rest2 hs hf
    unfold resolveCandidate
    rw [hs]
    dsimp only
    rw [hf]
    simp only [Option.getD_none]
    cases hm : first.title with
    | none => simp [truthyStr, hm]
    | some mt => by_cases hmt : mt = "" <;> simp [truthyStr, hm, hmt]
  · intro search t h
    unfold resolveCandidate
    rcases h with h | h | h <;> rw [h]
  · intro env b w text titles h1 h2 h3 h4 h5 hg hp
    simp only [POST, h1, h2, h3, h4, h5, hg, hp, Bool.not_true, Bool.or_self,
      Bool.false_or, Bool.or_false, if_false, Bool.false_eq_true]
    cases hv : titles.filterMap (resolveCandidate w.search) with
    | nil =>
      rw [List.filterMap_eq_nil_iff] at hv
      exact iff_of_true rfl hv
    | cons x xs =>
      constructor
      · intro hcontra
        have himp : Response.ok
            (List.map Prod.fst (List.map (enrichOne w b.userId) (x :: xs))) =
              noResultsResp := hcontra
        simp [noResultsResp] at himp
      · intro hall
        have hnil : titles.filterMap (resolveCandidate w.search) = [] :=
          List.filterMap_eq_nil_iff.mpr hall
        rw [hv] at hnil
        cases hnil

/-- C2 witness: the resolution rule instantiated on the failing world, where
the lone candidate drops and the 404 no-results response is returned. -/
theorem c2_resolution_rule_witness :
    resolveCandidate dummyWorld.search (Json.str "Inception") = none :=
  c2_resolution_rule.2.2.1 dummyWorld.search (Json.str "Inception") (Or.inl rfl)

/-- Helper: every response of the handler either carries no raw oracle text,
or is exactly the parse-failure response carrying it. -/
theorem post_rawText_cases (env : Env) (body : Except String RequestBody) (w : World) :
    ((POST env body w).1).rawText = none ∨
      ∃ emsg raw, (POST env body w).1 = parseFailResp emsg raw ∧
        ((POST env body w).1).rawText = some raw := by
  simp only [POST]
  repeat' split
  all_goals first
    | exact Or.inl rfl
    | exact Or.inr ⟨_, _, rfl, rfl⟩

/-- C4: a response with no bracketed span, or whose span fails to parse or
parses to something other than a non-empty array, makes the parse stage fail
with the corresponding message; the handler then returns the 500
parse-failure response with the raw trimmed oracle text attached; and among
all response kinds of the handler, only the parse-failure response ever
carries the raw oracle text. -/
theorem c4_parse_failure_surfaces_raw :
    (∀ text, findBracketSpan (trimChars (stripFences text.data)) = none →
      parseMovieTitles text = Except.error noArrayMsg) ∧
    (∀ text span, findBracketSpan (trimChars (stripFences text.data)) = some span →
      jsonParse span = none →
      parseMovieTitles text = Except.error jsonParseErrMsg) ∧
    (∀ text span j, findBracketSpan (trimChars (stripFences text.data)) = some span →
      jsonParse span = some j →
      (match j with | Json.arr items => items = [] | _ => True) →
      parseMovieTitles text = Except.error invalidFormatMsg) ∧
    (∀ env b w text emsg,
      truthyStr env.supabaseUrl = true → truthyStr env.supabaseKey = true →
      truthyStr env.geminiApiKey = true → truthyStr env.tmdbApiKey = true →
      truthyStr b.genre = true → w.gemini = Except.ok text →
      parseMovieTitles (jsTrim text) = Except.error emsg →
      (POST env (Except.ok b) w).1 = parseFailResp emsg (jsTrim text) ∧
        parseFailResp emsg (jsTrim text) =
          Response.err 500 "Failed to parse movie recommendations" (some emsg)
            (some (jsTrim text))) ∧
    (∀ env body w s, ((POST env body w).1).rawText = some s →
      ∃ emsg, (POST env body w).1 = parseFailResp emsg s) := by
  refine ⟨?_, ?_, ?_, ?_, ?_⟩
  · intro text h
    simp only [parseMovieTitles, h]
  · intro text span h hj
    simp only [parseMovieTitles, h, hj]
  · intro text span j h hj hcase
    cases j <;> simp_all [parseMovieTitles]
  · intro env b w text emsg h1 h2 h3 h4 h5 hg hp
    refine ⟨?_, rfl⟩
    simp [POST, h1, h2, h3, h4, h5, hg, hp]
  · intro env body w s h
    rcases post_rawText_cases env body w with hn | ⟨emsg, raw, heq, hr⟩
    · rw [hn] at h; cases h
    · rw [hr] at h
      obtain rfl := Option.some.inj h
      exact ⟨emsg, heq⟩

/-- C4 witness: a prose-only oracle response has no bracketed span, so the
parse stage fails with the no-array message. -/
theorem c4_parse_failure_surfaces_raw_witness :
    parseMovieTitles "I cannot help with that." = Except.error noArrayMsg :=
  c4_parse_failure_surfaces_raw.1 "I cannot help with that." rfl

/-- Helper: the enrichment step copies the resolved movie's title into the
record, in the success branch and in the degraded branch alike. -/
theorem enrichOne_title (w : World) (uid : Option String) (m : SearchResult) :
    (enrichOne w uid m).1.title = m.title.getD "" := by
  unfold enrichOne
  cases w.details m.id <;> rfl

/-- A detail record for the sample movie. -/
def interstellarDetails : DetailData :=
  { runtime := some 169, genres := some [{ id := 878, name := "Science Fiction" }]
    credits := none, videos := none, similar := none
    status := some "Released", tagline := some "" }

/-- A catalog search result for the sample movie. -/
def interstellarResult : SearchResult :=
  { id := 157336, title := some "Interstellar", overview := some "A team of explorers."
    poster_path := none, backdrop_path := none, release_date := some "2014-11-05"
    vote_average := some 8, vote_count := some 100, original_language := some "en" }

/-- A world whose oracle yields one title and whose catalog resolves it. -/
def goodWorld : World :=
  { gemini := Except.ok "[\"Interstellar\"]"
    search := fun _ => Except.ok (some [interstellarResult])
    details := fun _ => Except.ok interstellarDetails
    providers := fun _ => Except.ok none }

/-- C7: once the resolution stage is reached with candidate list `titles`
and at least one survivor, the response is a success array with exactly one
record per surviving candidate (so its length is at most the number of
candidates), and every returned record's title either matches its source
title case-insensitively or is the title of the first search result
substituted for it. -/
theorem c7_success_response_shape (env : Env) (b : RequestBody) (w : World)
    (text : String) (titles : List Json)
    (h1 : truthyStr env.supabaseUrl = true) (h2 : truthyStr env.supabaseKey = true)
    (h3 : truthyStr env.geminiApiKey = true) (h4 : truthyStr env.tmdbApiKey = true)
    (h5 : truthyStr b.genre = true) (hg : w.gemini = Except.ok text)
    (hp : parseMovieTitles (jsTrim text) = Except.ok titles)
    (hnz : titles.filterMap (resolveCandidate w.search) ≠ []) :
    ∃ records, (POST env (Except.ok b) w).1 = Response.ok records ∧
      records.length = (titles.filterMap (resolveCandidate w.search)).length ∧
      records.length ≤ titles.length ∧
      ∀ r ∈ records, ∃ t ∈ titles, ∃ s, t = Json.str s ∧
        (jsToLower r.title = jsToLower s ∨
          ∃ first rest2, w.search t = Except.ok (some (first :: rest2)) ∧
            first.title = some r.title) := by
  refine ⟨(titles.filterMap (resolveCandidate w.search)).map
      (fun m => (enrichOne w b.userId m).1), ?_, by simp, ?_, ?_⟩
  · simp only [POST, h1, h2, h3, h4, h5, hg, hp, Bool.not_true, Bool.or_self,
      if_false, Bool.false_eq_true]
    cases hv : titles.filterMap (resolveCandidate w.search) with
    | nil => exact absurd hv hnz
    | cons x xs =>
      show Response.ok _ = _
      rw [List.map_map]
      rfl
  · simpa using List.length_filterMap_le (resolveCandidate w.search) titles
  · intro r hr
    rcases List.mem_map.mp hr with ⟨m, hm, rfl⟩
    rcases List.mem_filterMap.mp hm with ⟨t, ht, hres⟩
    obtain ⟨s, rfl, mt, hmt, hcase⟩ := resolveCandidate_some w.search _ m hres
    refine ⟨Json.str s, ht, s, rfl, ?_⟩
    have htitle : (enrichOne w b.userId m).1.title = mt := by
      rw [enrichOne_title, hmt]
      rfl
    rcases hcase with hca | ⟨first, rest2, hsr, rfl⟩
    · exact Or.inl (by rw [htitle]; exact hca)
    · exact Or.inr ⟨_, _, hsr, by rw [htitle]; exact hmt⟩

/-- C7 witness: on the concrete one-title world, the response is a success
array of exactly one record. -/
theorem c7_success_response_shape_witness :
    ∃ records, (POST fullEnv (Except.ok savingBody) goodWorld).1 = Response.ok records ∧
      records.length = 1 := by
  obtain ⟨records, hok, hlen, -, -⟩ :=
    c7_success_response_shape fullEnv savingBody goodWorld "[\"Interstellar\"]"
      [Json.str "Interstellar"] rfl rfl rfl rfl rfl rfl rfl
      (by
        rw [show [Json.str "Interstellar"].filterMap (resolveCandidate goodWorld.search) =
          [interstellarResult] from rfl]
        simp)
  refine ⟨records, hok, ?_⟩
  rw [hlen]
  rfl

end MovieRec
